import Mathlib

/-!
Verification of the data-extraction and CLI-boundary behaviour of `rmsd_plot.py`.

The embedding models the script's pipeline:
  * `extract_data` (source lines 77-93): `numpy.genfromtxt(dat_file,
    missing_values="NA", dtype=float, comments=None)`, the NaN-row filter
    `data[~numpy.isnan(data).any(axis=1)]`, and the projection onto columns 0 and 1
    with `astype(int)` on column 0;
  * `restricted_extension` (lines 59-74): the output-extension whitelist checked by
    argparse before anything else runs;
  * `plot_rmsd` (lines 96-129): the invalid-colour branch (`ValueError` from
    `sns.lineplot`, error log, `sys.exit(1)`), otherwise `savefig`;
  * the `__main__` block (lines 132-181) sequencing them.

Tokens of the input file are modelled by their classification under Python float
parsing, non-NaN values by `FloatVal` (finite rationals plus the two infinities), and
NaN by `Option.none`.
-/

/-- decidable equality on `Except`, used to evaluate the model on concrete inputs. -/
instance {ε α : Type} [DecidableEq ε] [DecidableEq α] : DecidableEq (Except ε α)
  | Except.error e, Except.error f =>
    if h : e = f then isTrue (by rw [h])
    else isFalse (fun hc => h (Except.noConfusion hc id))
  | Except.error _, Except.ok _ => isFalse (fun hc => Except.noConfusion hc)
  | Except.ok _, Except.error _ => isFalse (fun hc => Except.noConfusion hc)
  | Except.ok x, Except.ok y =>
    if h : x = y then isTrue (by rw [h])
    else isFalse (fun hc => h (Except.noConfusion hc id))

namespace RmsdPlot

/-- classification of one whitespace-separated token of a data line, as seen by
`numpy.genfromtxt` with `missing_values="NA"` and `dtype=float`: the token parses as a
finite float with value `q`, parses as a non-finite float (`inf`, `1e999`, …, positive
or negative — Python's `float()` accepts these), is the missing-value sentinel `"NA"`,
or does not parse as a number at all. -/
inductive Tok where
  | num (q : ℚ)
  | inf
  | negInf
  | na
  | bad
  deriving DecidableEq

/-- truth value of "this token parsed as a finite number". -/
def Tok.isNum : Tok → Bool
  | .num _ => true
  | _ => false

/-- truth value of "this token parses as a float" (finite or infinite), i.e. the
converter yields a non-NaN value for it. -/
def Tok.parsesFloat : Tok → Bool
  | .num _ => true
  | .inf => true
  | .negInf => true
  | _ => false

/-- a non-NaN double value: a finite rational or one of the two infinities. -/
inductive FloatVal where
  | finite (q : ℚ)
  | posInf
  | negInf
  deriving DecidableEq

/-- truth value of "this value is finite". -/
def FloatVal.isFinite : FloatVal → Bool
  | .finite _ => true
  | _ => false

/-- float conversion of one token by genfromtxt's converter: the sentinel `"NA"` is a
missing value and becomes NaN (the float filling value), and the loose converter call
also maps any token that fails to parse as a float to NaN; tokens parsing to `±inf`
convert successfully to the infinite values.  NaN is modelled as `none`. -/
def convertTok : Tok → Option FloatVal
  | .num q => some (FloatVal.finite q)
  | .inf => some FloatVal.posInf
  | .negInf => some FloatVal.negInf
  | .na => none
  | .bad => none

/-- float conversion of a whole tokenized line. -/
def convertRow (l : List Tok) : List (Option FloatVal) := l.map convertTok

/-- data lines of the file: genfromtxt skips lines that are empty after stripping
(they split into zero tokens), so only non-blank lines contribute rows. -/
def dataRows (rawLines : List (List Tok)) : List (List Tok) :=
  rawLines.filter (fun l => !l.isEmpty)

/-- errors `extract_data` can raise. -/
inductive ExtractError where
  | fileNotFound
  | inconsistentCols
  | axisError
  deriving DecidableEq

/-- model of `numpy.genfromtxt(dat_file, missing_values="NA", dtype=float,
comments=None)` on the tokenized lines of an existing file: blank lines are skipped,
the first remaining line fixes the column count and any line with a different token
count raises `ValueError` (default `invalid_raise=True`), and each token is converted
by `convertTok`.  The result is the array before the final `squeeze()`. -/
def genfromtxt (rawLines : List (List Tok)) :
    Except ExtractError (List (List (Option FloatVal))) :=
  if (dataRows rawLines).all
      (fun l => l.length == ((dataRows rawLines).headD []).length) then
    Except.ok ((dataRows rawLines).map convertRow)
  else
    Except.error ExtractError.inconsistentCols

/-- `numpy.isnan(row).any()`: the row contains a NaN entry (`isnan` is false on
`±inf`, so infinite entries do not mark a row). -/
def rowHasNaN (r : List (Option FloatVal)) : Bool := r.any (fun v => v.isNone)

/-- entry `i` of a row surviving the NaN filter (used for the column reads
`data[:, 0]` and `data[:, 1]`); out-of-range or NaN entries default to `0`, which
never occurs on the rows the code reads. -/
def colD (r : List (Option FloatVal)) (i : ℕ) : FloatVal :=
  match r[i]? with
  | some (some v) => v
  | _ => FloatVal.finite 0

/-- `astype(int)` on a finite float: C-style truncation toward zero. -/
def truncToInt (q : ℚ) : ℤ :=
  if 0 ≤ q.num then ((q.num.toNat / q.den : ℕ) : ℤ)
  else -(((-q.num).toNat / q.den : ℕ) : ℤ)

/-- `astype(int)` on a double: truncation toward zero for finite values; casting a
non-finite double to int64 is undefined behaviour in C, which numpy resolves on the
usual platforms to INT64_MIN for both infinities. -/
def floatToInt : FloatVal → ℤ
  | .finite q => truncToInt q
  | .posInf => -(2 ^ 63)
  | .negInf => -(2 ^ 63)

/-- model of `extract_data` (source lines 77-93).  `none` stands for a path that does
not exist or cannot be read, where `open` raises `FileNotFoundError`.  Otherwise the
file is parsed by `genfromtxt`; its final `squeeze()` turns an array with fewer than
two rows or fewer than two columns into a non-2-D array, on which
`numpy.isnan(data).any(axis=1)` raises `numpy.AxisError`.  In the 2-D case the rows
containing NaN are dropped and the frame column is truncated to int. -/
def extract_data (file : Option (List (List Tok))) :
    Except ExtractError (List (ℤ × FloatVal)) :=
  match file with
  | none => Except.error ExtractError.fileNotFound
  | some rawLines =>
    match genfromtxt rawLines with
    | Except.error e => Except.error e
    | Except.ok table =>
      if 2 ≤ table.length ∧ 2 ≤ (table.headD []).length then
        Except.ok ((table.filter (fun r => !rowHasNaN r)).map
          (fun r => (floatToInt (colD r 0), colD r 1)))
      else
        Except.error ExtractError.axisError

/-- count logged by line 92 (`len(df)`) when extraction returns, none when it raises. -/
def extract_data_logged_count (file : Option (List (List Tok))) : Option ℕ :=
  match extract_data file with
  | Except.ok df => some df.length
  | Except.error _ => none

/-- a data row survives the NaN filter exactly when every token parses as a float
(finite or infinite): only the sentinel and unparseable tokens yield NaN. -/
def cleanRow (l : List Tok) : Bool := l.all Tok.parsesFloat

/-- converted value of token `i` of a line (0 for a missing or NaN token, which never
occurs where the code reads it). -/
def tokFloatAt (l : List Tok) (i : ℕ) : FloatVal :=
  match l[i]? with
  | some t =>
    match convertTok t with
    | some v => v
    | none => FloatVal.finite 0
  | none => FloatVal.finite 0

/-- contribution of a surviving line to the data frame: int-cast frame index and
RMSD value. -/
def projRow (l : List Tok) : ℤ × FloatVal := (floatToInt (tokFloatAt l 0), tokFloatAt l 1)

/-- field `i` of a line is the sentinel or fails to parse as a number (the reading of
"either field" in the spec, which only looks at the two named fields). -/
def fieldBad (l : List Tok) (i : ℕ) : Bool :=
  match l[i]? with
  | some t => !t.parsesFloat
  | none => true

/-- one of the two named fields of the record is contaminated. -/
def eitherFieldBad (l : List Tok) : Bool := fieldBad l 0 || fieldBad l 1

/-! CLI boundary: paths are modelled as lists of characters. -/

/-- split a list at the last occurrence of `c`: `splitLast c p = some (pre, post)`
when `p = pre ++ [c] ++ post` and `c` does not occur in `post`. -/
def splitLast (c : Char) : List Char → Option (List Char × List Char)
  | [] => none
  | x :: xs =>
    match splitLast c xs with
    | some (pre, post) => some (x :: pre, post)
    | none => if x = c then some ([], xs) else none

/-- part of the path after the last `/` separator (`os.path` basename of a POSIX
path), the region in which `os.path.splitext` looks for the extension dot. -/
def pathBasename (p : List Char) : List Char :=
  match splitLast '/' p with
  | some (_, b) => b
  | none => p

/-- extension component of `os.path.splitext(p)`: everything from the last dot of the
basename on, unless every character of the basename before that dot is itself a dot
(leading dots mark a hidden file, not an extension), in which case it is empty. -/
def splitext_ext (p : List Char) : List Char :=
  match splitLast '.' (pathBasename p) with
  | none => []
  | some (pre, post) => if pre.all (fun c => c = '.') then [] else '.' :: post

/-- `os.path.dirname` of a POSIX path (`posixpath.split` head): everything up to and
including the last `/`, with trailing separators stripped unless the head consists of
separators only; a path without `/` has an empty directory component. -/
def dirname (p : List Char) : List Char :=
  match splitLast '/' p with
  | none => []
  | some (pre, _) =>
    if (pre ++ ['/']).all (fun c => c = '/') then pre ++ ['/']
    else ((pre ++ ['/']).reverse.dropWhile (fun c => c = '/')).reverse

/-- whitelist of output extensions (source lines 68-69). -/
def valid_extensions : List (List Char) :=
  [".jpg".data, ".jpeg".data, ".pdf".data, ".pgf".data, ".png".data, ".ps".data,
   ".raw".data, ".rgba".data, ".svg".data, ".svgz".data, ".tif".data, ".tiff".data]

/-- model of `restricted_extension` (source lines 59-74): argparse's `type` callback
for `--out`, raising `ArgumentTypeError` when the extension of the path is not in the
whitelist. -/
def restricted_extension (out_file : List Char) : Except Unit (List Char) :=
  if splitext_ext out_file ∈ valid_extensions then Except.ok out_file
  else Except.error ()

/-- outcome of a run of `plot_rmsd` (source lines 96-129), keeping the observables the
spec talks about.  `exitCode = some 1` models `sys.exit(1)` from the invalid-colour
branch; `none` means the function returned normally. -/
structure PlotOutcome where
  exitCode : Option ℕ
  colorErrorLogged : Bool
  artifactWritten : Bool
  deriving DecidableEq

/-- model of `plot_rmsd`: when the backend rejects the colour, `sns.lineplot` raises
`ValueError`, the handler logs the list of valid colour names at error level and calls
`sys.exit(1)` before `savefig`; otherwise the artifact is written.  Whether the colour
is recognised by the backend is an input of the model (`colorOK`). -/
def plot_rmsd (src : List (ℤ × FloatVal)) (colorOK : Bool) : PlotOutcome :=
  if colorOK then
    { exitCode := none, colorErrorLogged := false, artifactWritten := true }
  else
    { exitCode := some 1, colorErrorLogged := true, artifactWritten := false }

/-- observables of one whole run of the script. -/
structure Outcome where
  exitCode : ℕ
  madeOutDir : Bool
  logFileCreated : Bool
  extractionRan : Bool
  loggedCount : Option ℕ
  colorErrorLogged : Bool
  artifactWritten : Bool
  deriving DecidableEq

/-- model of the `__main__` block (source lines 132-181): argparse validates `--out`
through `restricted_extension` during `parse_args` and exits with code 2 on failure,
before `os.makedirs`, before `create_log` and before `extract_data`.  Line 167 then
takes `out_dir = os.path.dirname(args.out)` and line 168 calls
`os.makedirs(out_dir, exist_ok=True)`: for an output path with no directory component
this is `os.makedirs("")`, which raises `FileNotFoundError` (`exist_ok` only
suppresses `FileExistsError`), killing the process with exit code 1 before the log
file is created and before extraction; a non-empty directory is created (the file
system is modelled as writable).  Then the log file is created, extraction runs (an
uncaught exception terminates the interpreter with exit code 1), and `plot_rmsd`
renders. -/
def main (out : List Char) (input : Option (List (List Tok))) (colorOK : Bool) :
    Outcome :=
  match restricted_extension out with
  | Except.error _ =>
    { exitCode := 2, madeOutDir := false, logFileCreated := false,
      extractionRan := false, loggedCount := none, colorErrorLogged := false,
      artifactWritten := false }
  | Except.ok _ =>
    if dirname out = [] then
      { exitCode := 1, madeOutDir := false, logFileCreated := false,
        extractionRan := false, loggedCount := none, colorErrorLogged := false,
        artifactWritten := false }
    else
    match extract_data input with
    | Except.error _ =>
      { exitCode := 1, madeOutDir := true, logFileCreated := true,
        extractionRan := true, loggedCount := none, colorErrorLogged := false,
        artifactWritten := false }
    | Except.ok df =>
      { exitCode := (plot_rmsd df colorOK).exitCode.getD 0, madeOutDir := true,
        logFileCreated := true, extractionRan := true, loggedCount := some df.length,
        colorErrorLogged := (plot_rmsd df colorOK).colorErrorLogged,
        artifactWritten := (plot_rmsd df colorOK).artifactWritten }

/-- side effects of the extraction step, in order: `numpy.genfromtxt` opens and reads
the input file (line 87), and on success `logging.info` (line 92) emits one record,
which the handlers installed by `create_log` append to the log file and the console.
An exception inside `genfromtxt` or at the axis check propagates before line 92, so no
record is emitted then. -/
inductive Effect where
  | readInput
  | logWrite
  deriving DecidableEq

/-- effect trace of `extract_data`. -/
def extract_data_effects (file : Option (List (List Tok))) : List Effect :=
  match file with
  | none => [Effect.readInput]
  | some rawLines =>
    match extract_data (some rawLines) with
    | Except.ok _ => [Effect.readInput, Effect.logWrite]
    | Except.error _ => [Effect.readInput]

/-! Helper lemmas about the embedding. -/

lemma extract_data_some (f : List (List Tok)) :
    extract_data (some f) =
      match genfromtxt f with
      | Except.error e => Except.error e
      | Except.ok table =>
        if 2 ≤ table.length ∧ 2 ≤ (table.headD []).length then
          Except.ok ((table.filter (fun r => !rowHasNaN r)).map
            (fun r => (floatToInt (colD r 0), colD r 1)))
        else
          Except.error ExtractError.axisError := rfl

lemma genfromtxt_ok (f : List (List Tok)) (table : List (List (Option FloatVal)))
    (h : genfromtxt f = Except.ok table) :
    table = (dataRows f).map convertRow ∧
    ∀ l ∈ dataRows f, l.length = ((dataRows f).headD []).length := by
  unfold genfromtxt at h
  by_cases hall :
      ((dataRows f).all (fun l => l.length == ((dataRows f).headD []).length)) = true
  · rw [if_pos hall] at h
    injection h with h
    refine ⟨h.symm, fun l hl => ?_⟩
    have hb := List.all_eq_true.mp hall l hl
    simpa using hb
  · rw [if_neg hall] at h
    exact absurd h (fun hc => Except.noConfusion hc)

lemma colD_convertRow (l : List Tok) (i : ℕ) : colD (convertRow l) i = tokFloatAt l i := by
  unfold colD convertRow tokFloatAt
  rw [List.getElem?_map]
  cases l[i]? with
  | none => rfl
  | some t => cases t <;> rfl

lemma not_rowHasNaN_convertRow (l : List Tok) : (!rowHasNaN (convertRow l)) = cleanRow l := by
  induction l with
  | nil => rfl
  | cons t ts ih =>
    cases t with
    | num q => exact ih
    | inf => exact ih
    | negInf => exact ih
    | na => rfl
    | bad => rfl

lemma tokFloatAt_isFinite (l : List Tok) (h : l.all Tok.isNum = true) (i : ℕ) :
    (tokFloatAt l i).isFinite = true := by
  unfold tokFloatAt
  cases hg : l[i]? with
  | none => rfl
  | some t =>
    have ht := List.all_eq_true.mp h t (List.getElem?_mem hg)
    cases t with
    | num q => rfl
    | inf => exact absurd ht (by simp [Tok.isNum])
    | negInf => exact absurd ht (by simp [Tok.isNum])
    | na => exact absurd ht (by simp [Tok.isNum])
    | bad => exact absurd ht (by simp [Tok.isNum])

lemma length_filter_add_length_filter_not (l : List α) (p : α → Bool) :
    (l.filter p).length + (l.filter (fun a => !p a)).length = l.length := by
  induction l with
  | nil => rfl
  | cons a t ih =>
    cases hpa : p a <;> simp [List.filter_cons, hpa] <;> omega

lemma extract_data_ok_spec (f : List (List Tok)) (df : List (ℤ × FloatVal))
    (h : extract_data (some f) = Except.ok df) :
    df = ((dataRows f).filter cleanRow).map projRow ∧
    2 ≤ (dataRows f).length ∧
    ∀ l ∈ dataRows f, 2 ≤ l.length := by
  rw [extract_data_some] at h
  cases hg : genfromtxt f with
  | error e => rw [hg] at h; exact absurd h (fun hc => Except.noConfusion hc)
  | ok table =>
    rw [hg] at h
    obtain ⟨htab, hlens⟩ := genfromtxt_ok f table hg
    subst htab
    dsimp only at h
    by_cases h2 : 2 ≤ ((dataRows f).map convertRow).length ∧
        2 ≤ (((dataRows f).map convertRow).headD []).length
    · rw [if_pos h2] at h
      injection h with h
      refine ⟨?_, ?_, ?_⟩
      · rw [← h, List.filter_map, List.map_map]
        have hfc : ((dataRows f).filter ((fun r => !rowHasNaN r) ∘ convertRow)) =
            (dataRows f).filter cleanRow :=
          List.filter_congr (fun l _ => by
            simp only [Function.comp_apply]
            exact not_rowHasNaN_convertRow l)
        rw [hfc]
        exact List.map_congr_left (fun l _ => by
          simp only [Function.comp_apply]
          unfold projRow
          rw [colD_convertRow, colD_convertRow])
      · have := h2.1
        rwa [List.length_map] at this
      · intro l hl
        have h2b := h2.2
        cases hdr : dataRows f with
        | nil => rw [hdr] at hl; exact absurd hl (List.not_mem_nil l)
        | cons a t =>
          rw [hdr] at h2b hlens hl
          simp only [List.map_cons, List.headD_cons, List.length_map] at h2b
          have hca : (convertRow a).length = a.length := List.length_map a convertTok
          have hla := hlens l hl
          simp only [List.headD_cons] at hla
          omega
    · rw [if_neg h2] at h
      exact absurd h (fun hc => Except.noConfusion hc)

/-! Concrete input files used to evaluate the model. -/

/-- file with lines `0 0.5 NA` and `1 0.6 2`: three consistent columns, the first two
fields of every row are numeric, and only the third column of row one is the sentinel. -/
def fileThreeCol : List (List Tok) :=
  [[Tok.num 0, Tok.num (mkRat 1 2), Tok.na],
   [Tok.num 1, Tok.num (mkRat 3 5), Tok.num 2]]

/-- file with lines `3 4` and `5 NA`. -/
def fileRowCountW : List (List Tok) :=
  [[Tok.num 3, Tok.num 4], [Tok.num 5, Tok.na]]

/-- file with lines `1 2` and `1`: the second line has a single token. -/
def fileShortLineW : List (List Tok) :=
  [[Tok.num 1, Tok.num 2], [Tok.num 1]]

/-- file with lines `0 1` and `1 2`: two valid rows. -/
def fileTwoValid : List (List Tok) :=
  [[Tok.num 0, Tok.num 1], [Tok.num 1, Tok.num 2]]

/-- file with lines `0 7`, `1 x` and `2 9`: the middle row has an unparseable token. -/
def fileOrderW : List (List Tok) :=
  [[Tok.num 0, Tok.num 7], [Tok.num 1, Tok.bad], [Tok.num 2, Tok.num 9]]

/-- file of the spec scenario: lines `0 0.5`, `1 NA`, `2 1.2`. -/
def fileScenario : List (List Tok) :=
  [[Tok.num 0, Tok.num (mkRat 1 2)], [Tok.num 1, Tok.na],
   [Tok.num 2, Tok.num (mkRat 6 5)]]

/-- file with lines `2.7 1` and `5 2`: a non-integral frame index in the first row. -/
def fileTruncW : List (List Tok) :=
  [[Tok.num (mkRat 27 10), Tok.num 1], [Tok.num 5, Tok.num 2]]

/-- file with lines `0 inf` and `1 2`: the first RMSD field parses to a non-finite
float. -/
def fileInfW : List (List Tok) :=
  [[Tok.num 0, Tok.inf], [Tok.num 1, Tok.num 2]]

/-! Claim theorems. -/

/-- C1 (amended): whenever `extract_data` returns, the Clean Dataset consists of
exactly the data rows in which every whitespace-separated field parses as a number, in
order, and its length is the number of data rows minus the number of rows contaminated
in any column — `numpy.isnan(data).any(axis=1)` inspects every column of the table,
not only the two fields the plot uses. -/
theorem extract_data_row_count (f : List (List Tok)) (df : List (ℤ × FloatVal))
    (h : extract_data (some f) = Except.ok df) :
    df = ((dataRows f).filter cleanRow).map projRow ∧
    df.length = (dataRows f).length -
      ((dataRows f).filter (fun l => !cleanRow l)).length := by
  obtain ⟨hdf, _, _⟩ := extract_data_ok_spec f df h
  refine ⟨hdf, ?_⟩
  have hsum := length_filter_add_length_filter_not (dataRows f) cleanRow
  rw [hdf, List.length_map]
  omega

/-- C1 witness: the theorem evaluated on the file with lines `3 4` and `5 NA`. -/
theorem extract_data_row_count_witness :
    extract_data (some fileRowCountW) = Except.ok [(3, FloatVal.finite 4)] ∧
    (([(3, FloatVal.finite 4)] : List (ℤ × FloatVal)) =
       ((dataRows fileRowCountW).filter cleanRow).map projRow ∧
     ([(3, FloatVal.finite 4)] : List (ℤ × FloatVal)).length =
       (dataRows fileRowCountW).length -
       ((dataRows fileRowCountW).filter (fun l => !cleanRow l)).length) :=
  ⟨by decide, extract_data_row_count fileRowCountW [(3, FloatVal.finite 4)] (by decide)⟩

/-- C1 counterexample: on the file with lines `0 0.5 NA` and `1 0.6 2` no row has its
first or second field contaminated, so the claim predicts a Clean Dataset of length
2 - 0 = 2; the code drops row one because of its third column and returns length 1. -/
theorem extract_data_third_column_drop :
    extract_data (some fileThreeCol) = Except.ok [(1, FloatVal.finite (mkRat 3 5))] ∧
    ((dataRows fileThreeCol).filter eitherFieldBad).length = 0 ∧
    (dataRows fileThreeCol).length = 2 ∧
    ([(1, FloatVal.finite (mkRat 3 5))] : List (ℤ × FloatVal)).length ≠
      (dataRows fileThreeCol).length -
        ((dataRows fileThreeCol).filter eitherFieldBad).length := by decide

/-- C2: `extract_data` fails with `FileNotFoundError` on a missing or unreadable path,
and on any file one of whose data lines tokenizes into fewer than two fields it raises
(`ValueError` from genfromtxt when the token count is inconsistent with the first
line, `numpy.AxisError` when every line has a single token and the squeezed array is
1-D) instead of silently dropping the line. -/
theorem extract_data_error_conditions :
    extract_data none = Except.error ExtractError.fileNotFound ∧
    ∀ f : List (List Tok), (∃ l, l ∈ f ∧ l ≠ [] ∧ l.length < 2) →
      extract_data (some f) = Except.error ExtractError.inconsistentCols ∨
      extract_data (some f) = Except.error ExtractError.axisError := by
  refine ⟨rfl, ?_⟩
  rintro f ⟨l, hlf, hlne, hllt⟩
  have hl1 : l.length = 1 := by
    have hpos : 0 < l.length := List.length_pos.mpr hlne
    omega
  have hlmem : l ∈ dataRows f := by
    unfold dataRows
    refine List.mem_filter.mpr ⟨hlf, ?_⟩
    simp [hlne]
  by_cases hall :
      ((dataRows f).all (fun r => r.length == ((dataRows f).headD []).length)) = true
  · right
    rw [extract_data_some]
    have hg : genfromtxt f = Except.ok ((dataRows f).map convertRow) := by
      unfold genfromtxt
      rw [if_pos hall]
    rw [hg]
    dsimp only
    have hhead : ((dataRows f).headD []).length = 1 := by
      have hb := List.all_eq_true.mp hall l hlmem
      have hlh : l.length = ((dataRows f).headD []).length := by simpa using hb
      omega
    have hc : ¬ (2 ≤ ((dataRows f).map convertRow).length ∧
        2 ≤ (((dataRows f).map convertRow).headD []).length) := by
      rintro ⟨hA, hB⟩
      cases hdr : dataRows f with
      | nil => rw [hdr] at hlmem; exact absurd hlmem (List.not_mem_nil l)
      | cons a t =>
        rw [hdr] at hB hhead
        simp only [List.map_cons, List.headD_cons] at hB hhead
        have hca : (convertRow a).length = a.length := List.length_map a convertTok
        omega
    rw [if_neg hc]
  · left
    rw [extract_data_some]
    have hg : genfromtxt f = Except.error ExtractError.inconsistentCols := by
      unfold genfromtxt
      rw [if_neg hall]
    rw [hg]

/-- C2 witness: the theorem evaluated on the file with lines `1 2` and `1`, whose
second line has a single token. -/
theorem extract_data_error_conditions_witness :
    (∃ l, l ∈ fileShortLineW ∧ l ≠ [] ∧ l.length < 2) ∧
    (extract_data (some fileShortLineW) = Except.error ExtractError.inconsistentCols ∨
     extract_data (some fileShortLineW) = Except.error ExtractError.axisError) :=
  ⟨⟨[Tok.num 1], by decide⟩,
   extract_data_error_conditions.2 fileShortLineW ⟨[Tok.num 1], by decide⟩⟩

/-- C3: an output path whose extension is not in the whitelist is rejected by argparse
through `restricted_extension` with exit code 2, before the output directory is
created, before the log file is created, before extraction runs, and with no artifact
written. -/
theorem main_bad_extension (out : List Char) (input : Option (List (List Tok)))
    (colorOK : Bool) (h : splitext_ext out ∉ valid_extensions) :
    main out input colorOK =
      { exitCode := 2, madeOutDir := false, logFileCreated := false,
        extractionRan := false, loggedCount := none, colorErrorLogged := false,
        artifactWritten := false } := by
  unfold main restricted_extension
  rw [if_neg h]

/-- C3 witness: the theorem evaluated on the output path `result.txt`. -/
theorem main_bad_extension_witness :
    splitext_ext "result.txt".data ∉ valid_extensions ∧
    main "result.txt".data (some fileTwoValid) true =
      { exitCode := 2, madeOutDir := false, logFileCreated := false,
        extractionRan := false, loggedCount := none, colorErrorLogged := false,
        artifactWritten := false } :=
  ⟨by decide, main_bad_extension "result.txt".data (some fileTwoValid) true (by decide)⟩

/-- C4 counterexample: `--out plot.png` has a valid extension and no directory
component, the dataset is valid and the colour unrecognised, yet the claimed flow
never happens: `os.makedirs(os.path.dirname("plot.png"))` is `os.makedirs("")`, which
raises `FileNotFoundError` at line 168 before `create_log` and before `extract_data`,
so no count is logged, no colour error is logged and the process dies with a different
failure. -/
theorem main_bare_output_path_dies_before_logging :
    restricted_extension "plot.png".data = Except.ok "plot.png".data ∧
    extract_data (some fileTwoValid) =
      Except.ok [(0, FloatVal.finite 1), (1, FloatVal.finite 2)] ∧
    main "plot.png".data (some fileTwoValid) false =
      { exitCode := 1, madeOutDir := false, logFileCreated := false,
        extractionRan := false, loggedCount := none, colorErrorLogged := false,
        artifactWritten := false } := by decide

/-- C4 (amended): with a valid output extension, an output path that has a directory
component (so that `os.makedirs` at line 168 does not die on the empty string), and a
dataset that extracts successfully, an unrecognised colour makes the run log the
extracted count, fail in `plot_rmsd` with the error-level message listing the valid
colour names, exit with code 1, and write no artifact. -/
theorem main_invalid_color (out : List Char) (input : Option (List (List Tok)))
    (df : List (ℤ × FloatVal)) (hdir : ¬ dirname out = [])
    (hext : restricted_extension out = Except.ok out)
    (hdat : extract_data input = Except.ok df) :
    main out input false =
      { exitCode := 1, madeOutDir := true, logFileCreated := true,
        extractionRan := true, loggedCount := some df.length, colorErrorLogged := true,
        artifactWritten := false } := by
  unfold main
  rw [hext]
  rw [if_neg hdir]
  rw [hdat]
  rfl

/-- C4 witness: the theorem evaluated on the output path `out/plot.png` and the file
with lines `0 1` and `1 2`. -/
theorem main_invalid_color_witness :
    ¬ dirname "out/plot.png".data = [] ∧
    restricted_extension "out/plot.png".data = Except.ok "out/plot.png".data ∧
    extract_data (some fileTwoValid) =
      Except.ok [(0, FloatVal.finite 1), (1, FloatVal.finite 2)] ∧
    main "out/plot.png".data (some fileTwoValid) false =
      { exitCode := 1, madeOutDir := true, logFileCreated := true,
        extractionRan := true, loggedCount := some 2, colorErrorLogged := true,
        artifactWritten := false } :=
  ⟨by decide, by decide, by decide,
   main_invalid_color "out/plot.png".data (some fileTwoValid)
     [(0, FloatVal.finite 1), (1, FloatVal.finite 2)] (by decide) (by decide)
     (by decide)⟩

/-- C5 counterexample: on the file with lines `0 inf` and `1 2` the token `inf`
parses to a non-finite float, `isnan(inf)` is false, and the row survives, so the
Clean Dataset contains the element `(0, +inf)` whose RMSD field is not finite. -/
theorem extract_data_keeps_infinite_values :
    extract_data (some fileInfW) =
      Except.ok [(0, FloatVal.posInf), (1, FloatVal.finite 2)] ∧
    ((0 : ℤ), FloatVal.posInf) ∈
      ([((0 : ℤ), FloatVal.posInf), (1, FloatVal.finite 2)] : List (ℤ × FloatVal)) ∧
    FloatVal.isFinite FloatVal.posInf = false := by decide

/-- C5 (amended): the surviving records form a sublist (hence a subsequence, in
source order) of the data rows; every surviving row has at least the two fields the
plot reads and all its fields parse to non-NaN numeric values — finite whenever the
row's tokens all parse to finite numbers, but tokens parsing to `±inf` survive the
NaN filter with non-finite values. -/
theorem extract_data_preserves_order (f : List (List Tok)) (df : List (ℤ × FloatVal))
    (h : extract_data (some f) = Except.ok df) :
    ∃ kept : List (List Tok), List.Sublist kept (dataRows f) ∧
      (∀ l ∈ kept, cleanRow l = true ∧ 2 ≤ l.length ∧
        (l.all Tok.isNum = true → ((projRow l).2).isFinite = true)) ∧
      df = kept.map projRow := by
  obtain ⟨hdf, _, hlen⟩ := extract_data_ok_spec f df h
  refine ⟨(dataRows f).filter cleanRow, List.filter_sublist _, ?_, hdf⟩
  intro l hl
  have hm := List.mem_filter.mp hl
  exact ⟨hm.2, hlen l hm.1, fun hfin => tokFloatAt_isFinite l hfin 1⟩

/-- C5 witness: the theorem evaluated on the file with lines `0 7`, `1 x`, `2 9`. -/
theorem extract_data_preserves_order_witness :
    extract_data (some fileOrderW) =
      Except.ok [(0, FloatVal.finite 7), (2, FloatVal.finite 9)] ∧
    (∃ kept : List (List Tok), List.Sublist kept (dataRows fileOrderW) ∧
      (∀ l ∈ kept, cleanRow l = true ∧ 2 ≤ l.length ∧
        (l.all Tok.isNum = true → ((projRow l).2).isFinite = true)) ∧
      ([(0, FloatVal.finite 7), (2, FloatVal.finite 9)] : List (ℤ × FloatVal)) =
        kept.map projRow) :=
  ⟨by decide, extract_data_preserves_order fileOrderW
     [(0, FloatVal.finite 7), (2, FloatVal.finite 9)] (by decide)⟩

/-- C6: evaluation at the failing input of the claim.  A file whose single data row
`1 NA` is sentinel-contaminated does not yield a Clean Dataset of length 0: genfromtxt
squeezes the 1-row table to a 1-D array and `isnan(data).any(axis=1)` raises
`numpy.AxisError`, so `extract_data` fails instead of returning. -/
theorem extract_data_all_sentinel_single_row_crashes :
    extract_data (some [[Tok.num 1, Tok.na]]) =
      Except.error ExtractError.axisError := by decide

/-- C7: the spec scenario, lines `0 0.5`, `1 NA`, `2 1.2`: the Clean Dataset is
[(0, 0.5), (2, 1.2)] and the logged count is 2. -/
theorem extract_data_scenario_example :
    extract_data (some fileScenario) =
      Except.ok [(0, FloatVal.finite (mkRat 1 2)), (2, FloatVal.finite (mkRat 6 5))] ∧
    extract_data_logged_count (some fileScenario) = some 2 := by decide

/-- C8 counterexample: on a successful extraction the effect trace is not just the
input read — line 92 emits a log record, which the handlers installed by `create_log`
append to the log file (and the console), so a file other than the input is written
during the extraction step. -/
theorem extract_data_logs_during_extraction :
    Effect.logWrite ∈ extract_data_effects (some fileTwoValid) ∧
    extract_data_effects (some fileTwoValid) ≠ [Effect.readInput] := by decide

/-- C8 (amended): the extraction step's only side effects are reading the input file
and, on success, emitting the single informational count record through the
process-wide logger (which appends to the log file and console); nothing else is
opened, written or modified. -/
theorem extract_data_effects_read_then_log (file : Option (List (List Tok))) :
    extract_data_effects file = [Effect.readInput] ∨
    extract_data_effects file = [Effect.readInput, Effect.logWrite] := by
  cases file with
  | none => exact Or.inl rfl
  | some f =>
    cases h : extract_data (some f) with
    | error e =>
      refine Or.inl ?_
      show (match extract_data (some f) with
            | Except.ok _ => [Effect.readInput, Effect.logWrite]
            | Except.error _ => [Effect.readInput]) = [Effect.readInput]
      rw [h]
    | ok df =>
      refine Or.inr ?_
      show (match extract_data (some f) with
            | Except.ok _ => [Effect.readInput, Effect.logWrite]
            | Except.error _ => [Effect.readInput]) =
          [Effect.readInput, Effect.logWrite]
      rw [h]

/-- C9: evaluation at the failing input of the claim.  A file whose single data row
`0 0.5` is valid does not yield the one-row Clean Dataset: genfromtxt squeezes the
1-row table to a 1-D array and `isnan(data).any(axis=1)` raises `numpy.AxisError`. -/
theorem extract_data_single_valid_row_crashes :
    extract_data (some [[Tok.num 0, Tok.num (mkRat 1 2)]]) =
      Except.error ExtractError.axisError := by decide

/-- C10: a data row whose first field parses to a finite non-integral number and whose
fields all parse as numbers is kept in the Clean Dataset, and its frame index is the
first field truncated toward zero (`astype(int)`). -/
theorem extract_data_truncates_nonintegral_frame (f : List (List Tok))
    (df : List (ℤ × FloatVal)) (row : List Tok) (q : ℚ)
    (h : extract_data (some f) = Except.ok df) (hrow : row ∈ dataRows f)
    (hclean : cleanRow row = true) (hq : row[0]? = some (Tok.num q))
    (hden : q.den ≠ 1) :
    projRow row ∈ df ∧ (projRow row).1 = truncToInt q := by
  obtain ⟨hdf, _, _⟩ := extract_data_ok_spec f df h
  constructor
  · rw [hdf]
    exact List.mem_map_of_mem projRow (List.mem_filter.mpr ⟨hrow, hclean⟩)
  · unfold projRow tokFloatAt
    rw [hq]
    rfl

/-- C10 witness: the theorem evaluated on the file with lines `2.7 1` and `5 2`; the
non-integral frame 2.7 is kept and truncated to 2. -/
theorem extract_data_truncates_nonintegral_frame_witness :
    extract_data (some fileTruncW) =
      Except.ok [(2, FloatVal.finite 1), (5, FloatVal.finite 2)] ∧
    [Tok.num (mkRat 27 10), Tok.num 1] ∈ dataRows fileTruncW ∧
    cleanRow [Tok.num (mkRat 27 10), Tok.num 1] = true ∧
    (mkRat 27 10).den ≠ 1 ∧
    truncToInt (mkRat 27 10) = 2 ∧
    (projRow [Tok.num (mkRat 27 10), Tok.num 1] ∈
       ([(2, FloatVal.finite 1), (5, FloatVal.finite 2)] : List (ℤ × FloatVal)) ∧
     (projRow [Tok.num (mkRat 27 10), Tok.num 1]).1 = truncToInt (mkRat 27 10)) :=
  ⟨by decide, by decide, by decide, by decide, by decide,
   extract_data_truncates_nonintegral_frame fileTruncW
     [(2, FloatVal.finite 1), (5, FloatVal.finite 2)]
     [Tok.num (mkRat 27 10), Tok.num 1] (mkRat 27 10) (by decide) (by decide)
     (by decide) (by decide) (by decide)⟩

end RmsdPlot
